import Mathlib

/-!
Shallow embedding of the TEP_React dashboard core logic.

The repository holds two variants of the same single-page dashboard:
  * `src/src/App.jsx`  — modelled below in namespace `Dash`
    (statuses `normal`/`warning`, no data log);
  * `src/unnamed/part_000` — modelled below in namespace `LogDash`
    (statuses `Normal`/`Critical`, with a bounded data log).

JavaScript numbers are modelled as rationals `ℚ`; each `Math.random()`
draw is an explicit `ℚ` parameter (hypothesised in `[0,1)` where a claim
needs the range).  JS `Array.prototype.sort` with comparator
`(a,b) => b.risk - a.risk` is modelled as a stable sort by the total
preorder `riskGE` (descending risk).  React state updates inside the tick
callback are modelled by an explicit state-transition function; the
closure variable `sensors` seen by `setChartData`/`setDataLog` is the
pre-update sensor array, exactly as in the source effect.
-/

namespace TEP

/-- Sensor categories, derived from the id (`type:` field in both variants). -/
inductive SType where
  | temperature
  | pressure
  | flow
  | composition
deriving DecidableEq, Repr

/-- `i <= 13 ? 'temperature' : i <= 26 ? 'pressure' : i <= 39 ? 'flow' : 'composition'` -/
def typeOfId (i : Nat) : SType :=
  if i ≤ 13 then .temperature
  else if i ≤ 26 then .pressure
  else if i ≤ 39 then .flow
  else .composition

/-- A sensor record; `σ` is the variant's status enum. -/
structure Sensor (σ : Type) where
  id : Nat
  name : String
  value : ℚ
  risk : ℚ
  status : σ
  type : SType
deriving DecidableEq, Repr

/-- `Math.max(0, Math.min(100, x))` -/
def clamp (x : ℚ) : ℚ := max 0 (min 100 x)

theorem clamp_nonneg (x : ℚ) : 0 ≤ clamp x := le_max_left 0 _

theorem clamp_le_100 (x : ℚ) : clamp x ≤ 100 :=
  max_le (by norm_num) (min_le_left 100 x)

/-- The comparator `(a, b) => b.risk - a.risk`: `a` precedes `b` when
`a.risk ≥ b.risk` (descending risk). -/
def riskGE {σ : Type} (a b : Sensor σ) : Prop := b.risk ≤ a.risk

instance {σ : Type} : DecidableRel (@riskGE σ) :=
  fun a b => inferInstanceAs (Decidable (b.risk ≤ a.risk))

instance {σ : Type} : IsTotal (Sensor σ) riskGE :=
  ⟨fun a b => le_total b.risk a.risk⟩

instance {σ : Type} : IsTrans (Sensor σ) riskGE :=
  ⟨fun _ _ _ h1 h2 => le_trans h2 h1⟩

/-- `sensors.sort((a, b) => b.risk - a.risk)` -/
def sortByRiskDesc {σ : Type} (l : List (Sensor σ)) : List (Sensor σ) :=
  List.insertionSort riskGE l

theorem sortByRiskDesc_perm {σ : Type} (l : List (Sensor σ)) :
    List.Perm (sortByRiskDesc l) l :=
  List.perm_insertionSort riskGE l

theorem sortByRiskDesc_sorted {σ : Type} (l : List (Sensor σ)) :
    List.Sorted riskGE (sortByRiskDesc l) :=
  List.sorted_insertionSort riskGE l

/-! ## Selection Manager (`handleSensorClick`, identical in both variants) -/

/--
```
if (selectedSensors.includes(sensorId)) {
  setSelectedSensors(selectedSensors.filter(id => id !== sensorId));
} else {
  if (selectedSensors.length < 3) {
    setSelectedSensors([...selectedSensors, sensorId]);
  } else {
    setSelectedSensors([...selectedSensors.slice(1), sensorId]);
  }
}
```
-/
def handleSensorClick (selectedSensors : List Nat) (sensorId : Nat) : List Nat :=
  if sensorId ∈ selectedSensors then
    selectedSensors.filter (fun id => id ≠ sensorId)
  else if selectedSensors.length < 3 then
    selectedSensors ++ [sensorId]
  else
    selectedSensors.drop 1 ++ [sensorId]

/-! ## Trend Buffer (`setChartData`, identical in both variants) -/

/-- One chart point: `{ time: ..., sensor_<id>: value, ... }`.  The dynamic
object keys `sensor_<id>` are modelled as an association list from the
sensor id to the recorded value. -/
structure ChartPoint where
  time : String
  entries : List (Nat × ℚ)
deriving DecidableEq, Repr

/--
```
selectedSensors.forEach(sensorId => {
  const sensor = sensors.find(s => s.id === sensorId);
  if (sensor) {
    dataPoint[`sensor_${sensorId}`] = sensor.value;
  }
});
```
-/
def buildPoint {σ : Type} (selection : List Nat) (sensors : List (Sensor σ))
    (now : String) : ChartPoint :=
  { time := now,
    entries := selection.filterMap (fun sensorId =>
      (sensors.find? (fun s => s.id == sensorId)).map (fun s => (sensorId, s.value))) }

/--
```
const newData = [...prev.slice(-29)];
...
newData.push(dataPoint);
return newData;
```
`prev.slice(-29)` keeps the last 29 elements (all of them when fewer). -/
def appendSample (prev : List ChartPoint) (dataPoint : ChartPoint) : List ChartPoint :=
  prev.drop (prev.length - 29) ++ [dataPoint]

/-- The trend buffer produced by running `appendSample` on each point of
`points` in order, starting from the empty buffer. -/
def trendRun (points : List ChartPoint) : List ChartPoint :=
  points.foldl appendSample []

end TEP

namespace TEP.Dash

/-! ## Variant `src/src/App.jsx` -/

/-- Sensor status in the `App.jsx` variant. -/
inductive DStatus where
  | normal
  | warning
deriving DecidableEq, Repr

/--
`generateTEPData` with the per-sensor random draws made explicit:
`val i`, `rsk i`, `st i` are the three `Math.random()` results used for
sensor `i` (value uses `Math.random() * 100`, risk likewise, status is
`Math.random() > 0.8 ? 'warning' : 'normal'`).
-/
def rawSensors (val rsk st : Nat → ℚ) : List (Sensor DStatus) :=
  (List.range 52).map (fun k =>
    let i := k + 1
    { id := i,
      name := "XMEAS_" ++ toString i,
      value := val i * 100,
      risk := rsk i * 100,
      status := if st i > 4/5 then .warning else .normal,
      type := typeOfId i })

/-- `return sensors.sort((a, b) => b.risk - a.risk);` -/
def generateTEPData (val rsk st : Nat → ℚ) : List (Sensor DStatus) :=
  sortByRiskDesc (rawSensors val rsk st)

/--
The body of `prev.map(s => ({...s, ...}))` in the tick effect, with the
three `Math.random()` draws `rv`, `rr`, `rs` explicit:
```
value: Math.max(0, Math.min(100, s.value + (Math.random() - 0.5) * 5)),
risk: Math.max(0, Math.min(100, s.risk + (Math.random() - 0.5) * 3)),
status: Math.random() > 0.9 ? 'warning' : s.value > 80 ? 'warning' : 'normal'
```
Note: `s.value` in the status rule is the PRE-update value — in the JS
object literal every field initializer reads the original `s`. -/
def updateSensor (rv rr rs : ℚ) (s : Sensor DStatus) : Sensor DStatus :=
  { s with
    value := clamp (s.value + (rv - 1/2) * 5),
    risk := clamp (s.risk + (rr - 1/2) * 3),
    status := if rs > 9/10 then .warning else if s.value > 80 then .warning else .normal }

/-- `setSensors(prev => { ... return updated.sort((a,b) => b.risk - a.risk); })`
with `draws idx = (rv, rr, rs)` the random draws for the sensor at
position `idx` of `prev`. -/
def tickSensors (draws : Nat → ℚ × ℚ × ℚ) (prev : List (Sensor DStatus)) :
    List (Sensor DStatus) :=
  sortByRiskDesc (prev.enum.map (fun p =>
    updateSensor (draws p.1).1 (draws p.1).2.1 (draws p.1).2.2 p.2))

/-- The dashboard state touched by the tick effect. -/
structure AppState where
  sensors : List (Sensor DStatus)
  chartData : List ChartPoint
deriving Repr

/-- One firing of the 1-second tick effect.  `setChartData` reads the
closure variable `sensors`, i.e. the pre-update array `st.sensors`. -/
def tick (draws : Nat → ℚ × ℚ × ℚ) (selection : List Nat) (now : String)
    (st : AppState) : AppState :=
  { sensors := tickSensors draws st.sensors,
    chartData := appendSample st.chartData (buildPoint selection st.sensors now) }

end TEP.Dash

namespace TEP.LogDash

/-! ## Variant `src/unnamed/part_000` -/

/-- Sensor status in the `part_000` variant. -/
inductive LStatus where
  | Normal
  | Critical
deriving DecidableEq, Repr

/-- `generateTEPData` of the `part_000` variant (status is
`Math.random() > 0.8 ? 'Critical' : 'Normal'`). -/
def rawSensors (val rsk st : Nat → ℚ) : List (Sensor LStatus) :=
  (List.range 52).map (fun k =>
    let i := k + 1
    { id := i,
      name := "XMEAS_" ++ toString i,
      value := val i * 100,
      risk := rsk i * 100,
      status := if st i > 4/5 then .Critical else .Normal,
      type := typeOfId i })

/-- `return sensors.sort((a, b) => b.risk - a.risk);` -/
def generateTEPData (val rsk st : Nat → ℚ) : List (Sensor LStatus) :=
  sortByRiskDesc (rawSensors val rsk st)

/--
The body of `prev.map(s => ({...s, ...}))` in the tick effect:
```
value: Math.max(0, Math.min(100, s.value + (Math.random() - 0.5) * 5)),
risk: Math.max(0, Math.min(100, s.risk + (Math.random() - 0.5) * 3)),
status: Math.random() > 0.85 ? 'Critical' : 'Normal'
```
-/
def updateSensor (rv rr rs : ℚ) (s : Sensor LStatus) : Sensor LStatus :=
  { s with
    value := clamp (s.value + (rv - 1/2) * 5),
    risk := clamp (s.risk + (rr - 1/2) * 3),
    status := if rs > 17/20 then .Critical else .Normal }

/-- `setSensors(prev => { ... return updated.sort((a,b) => b.risk - a.risk); })` -/
def tickSensors (draws : Nat → ℚ × ℚ × ℚ) (prev : List (Sensor LStatus)) :
    List (Sensor LStatus) :=
  sortByRiskDesc (prev.enum.map (fun p =>
    updateSensor (draws p.1).1 (draws p.1).2.1 (draws p.1).2.2 p.2))

/-- One row of the data log:
`{ no, time, sensorName, value: s.value.toFixed(2), status }`.
The `value` field is kept as the underlying rational; the 2-decimal
string formatting of `toFixed(2)` is presentation and not modelled. -/
structure LogEntry where
  no : Nat
  time : String
  sensorName : String
  value : ℚ
  status : LStatus
deriving DecidableEq, Repr

/--
```
setDataLog(prev => {
  const recentSensors = sensors.slice(0, 5).map((s, idx) => ({
    no: prev.length + idx + 1,
    time: ..., sensorName: s.name, value: s.value.toFixed(2), status: s.status
  }));
  return [...recentSensors, ...prev].slice(0, 100);
});
```
-/
def appendLog (sensors : List (Sensor LStatus)) (now : String)
    (prev : List LogEntry) : List LogEntry :=
  let recentSensors := (sensors.take 5).enum.map (fun p =>
    { no := prev.length + p.1 + 1,
      time := now,
      sensorName := p.2.name,
      value := p.2.value,
      status := p.2.status : LogEntry })
  (recentSensors ++ prev).take 100

/-- The dashboard state touched by the tick effect. -/
structure AppState where
  sensors : List (Sensor LStatus)
  chartData : List ChartPoint
  dataLog : List LogEntry
deriving Repr

/-- One firing of the 1-second tick effect.  Both `setChartData` and
`setDataLog` read the closure variable `sensors`, i.e. the pre-update
array `st.sensors`. -/
def tick (draws : Nat → ℚ × ℚ × ℚ) (selection : List Nat) (now : String)
    (st : AppState) : AppState :=
  { sensors := tickSensors draws st.sensors,
    chartData := appendSample st.chartData (buildPoint selection st.sensors now),
    dataLog := appendLog st.sensors now st.dataLog }

/-- KPI: `sensors.filter(s => s.status === 'Critical').length` -/
def alertCount (sensors : List (Sensor LStatus)) : Nat :=
  (sensors.filter (fun s => s.status == LStatus.Critical)).length

/-- Overall system status labels. -/
inductive SysStatus where
  | NORMAL
  | WARNING
  | CRITICAL
deriving DecidableEq, Repr

/-- `alertCount === 0 ? 'NORMAL' : alertCount < 5 ? 'WARNING' : 'CRITICAL'` -/
def systemStatus (sensors : List (Sensor LStatus)) : SysStatus :=
  if alertCount sensors = 0 then .NORMAL
  else if alertCount sensors < 5 then .WARNING
  else .CRITICAL

/-- The data log after `n` ticks starting from the empty log, where
`sensorsAt k` is the (pre-update) sensor array seen by tick `k` and
`timeAt k` its timestamp. -/
def logRun (sensorsAt : Nat → List (Sensor LStatus)) (timeAt : Nat → String) :
    Nat → List LogEntry
  | 0 => []
  | n + 1 => appendLog (sensorsAt n) (timeAt n) (logRun sensorsAt timeAt n)

/-- The sequence numbers assigned to the entries newly created by tick
`k` (0-indexed): `prev.length + idx + 1` for each of the (up to 5)
sensors logged. -/
def assignedNos (sensorsAt : Nat → List (Sensor LStatus)) (timeAt : Nat → String)
    (k : Nat) : List Nat :=
  (List.range (min 5 (sensorsAt k).length)).map
    (fun idx => (logRun sensorsAt timeAt k).length + idx + 1)

end TEP.LogDash
section Claims

open TEP TEP.Dash TEP.LogDash

theorem filter_ne_eq_erase (s : List Nat) (x : Nat) (hnd : s.Nodup) :
    s.filter (fun id => id ≠ x) = s.erase x := by
  induction s with
  | nil => rfl
  | cons a t ih =>
    rcases List.nodup_cons.mp hnd with ⟨ha, ht⟩
    by_cases hax : a = x
    · subst hax
      rw [List.erase_cons_head, List.filter_cons_of_neg (by simp)]
      exact List.filter_eq_self.mpr
        (fun b hb => decide_eq_true (fun h => ha (h ▸ hb)))
    · rw [List.filter_cons_of_pos (by simpa using hax),
        List.erase_cons_tail (by simpa using hax), ih ht]

/-- C3: toggle removes a present id, appends an absent id when size < 3,
evicts the index-0 (earliest-inserted) id and appends when size = 3;
length stays ≤ 3 and ids stay unique; toggling 4 on [1,2,3] gives [2,3,4]. -/
theorem claim_toggle_fifo (s : List Nat) (x : Nat)
    (hlen : s.length ≤ 3) (hnd : s.Nodup) :
    (x ∈ s → handleSensorClick s x = s.erase x) ∧
    (x ∉ s → s.length < 3 → handleSensorClick s x = s ++ [x]) ∧
    (x ∉ s → s.length = 3 → handleSensorClick s x = s.tail ++ [x]) ∧
    (handleSensorClick s x).length ≤ 3 ∧
    (handleSensorClick s x).Nodup ∧
    handleSensorClick [1, 2, 3] 4 = [2, 3, 4] := by
  have htail : s.tail = s.drop 1 := by cases s <;> rfl
  refine ⟨?_, ?_, ?_, ?_, ?_, by decide⟩
  · intro hx
    unfold handleSensorClick
    rw [if_pos hx]
    exact filter_ne_eq_erase s x hnd
  · intro hx h3
    unfold handleSensorClick
    rw [if_neg hx, if_pos h3]
  · intro hx h3
    unfold handleSensorClick
    rw [if_neg hx, if_neg (by omega), htail]
  · unfold handleSensorClick
    split_ifs with h1 h2
    · exact le_trans (List.length_filter_le _ _) hlen
    · simp
      omega
    · simp [List.length_drop]
      omega
  · unfold handleSensorClick
    split_ifs with h1 h2
    · exact hnd.filter _
    · simp [List.nodup_append, hnd, h1]
    · have hnd2 : s.tail.Nodup := by
        rw [htail]
        exact hnd.sublist (List.drop_sublist 1 s)
      have hxnd : x ∉ s.tail := by
        rw [htail]
        exact fun hmem => h1 (List.mem_of_mem_drop hmem)
      simp [List.nodup_append, hnd2, hxnd]

theorem claim_toggle_fifo_witness :
    ([1, 2] : List Nat).length ≤ 3 ∧ ([1, 2] : List Nat).Nodup ∧
    handleSensorClick [1, 2] 3 = [1, 2, 3] :=
  ⟨by decide, by decide,
    (claim_toggle_fifo [1, 2] 3 (by decide) (by decide)).2.1 (by decide) (by decide)⟩

/-- C5 counterexample: toggling id 4 twice on [1,2,3] yields [2,3], not [1,2,3]. -/
theorem claim_toggle_involutive_cex :
    handleSensorClick (handleSensorClick [1, 2, 3] 4) 4 = [2, 3] ∧
    handleSensorClick (handleSensorClick [1, 2, 3] 4) 4 ≠ [1, 2, 3] := by
  constructor <;> decide

/-- C5 (amended): when x is absent and the selection is below capacity
(add then remove), toggling x twice restores the selection exactly. -/
theorem claim_toggle_involutive (s : List Nat) (x : Nat)
    (hx : x ∉ s) (hlen : s.length < 3) :
    handleSensorClick (handleSensorClick s x) x = s := by
  have h1 : handleSensorClick s x = s ++ [x] := by
    unfold handleSensorClick
    rw [if_neg hx, if_pos hlen]
  rw [h1]
  have hx2 : x ∈ s ++ [x] := by simp
  unfold handleSensorClick
  rw [if_pos hx2, List.filter_append]
  have hs : s.filter (fun id => id ≠ x) = s :=
    List.filter_eq_self.mpr (fun a ha => decide_eq_true (fun h => hx (h ▸ ha)))
  have hx1 : ([x].filter (fun id => id ≠ x)) = [] := by simp
  rw [hs, hx1, List.append_nil]

theorem claim_toggle_involutive_witness :
    (5 ∉ ([1, 2] : List Nat)) ∧ ([1, 2] : List Nat).length < 3 ∧
    handleSensorClick (handleSensorClick [1, 2] 5) 5 = [1, 2] :=
  ⟨by decide, by decide, claim_toggle_involutive [1, 2] 5 (by decide) (by decide)⟩

/-- C7: overall system status is NORMAL iff no sensor is Critical,
WARNING iff 1–4 are, CRITICAL iff at least 5 are. -/
theorem claim_system_status (sensors : List (Sensor LStatus)) :
    (systemStatus sensors = SysStatus.NORMAL ↔ alertCount sensors = 0) ∧
    (systemStatus sensors = SysStatus.WARNING ↔
      1 ≤ alertCount sensors ∧ alertCount sensors ≤ 4) ∧
    (systemStatus sensors = SysStatus.CRITICAL ↔ 5 ≤ alertCount sensors) := by
  unfold systemStatus
  split_ifs with h1 h2 <;>
    refine ⟨?_, ?_, ?_⟩ <;> simp_all <;> omega

end Claims

section Claims2

open TEP TEP.Dash TEP.LogDash

theorem dash_mem_tickSensors {draws : Nat → ℚ × ℚ × ℚ}
    {prev : List (Sensor DStatus)} {t : Sensor DStatus}
    (ht : t ∈ Dash.tickSensors draws prev) :
    ∃ i s, prev[i]? = some s ∧
      t = Dash.updateSensor (draws i).1 (draws i).2.1 (draws i).2.2 s := by
  unfold Dash.tickSensors sortByRiskDesc at ht
  rw [List.mem_insertionSort] at ht
  obtain ⟨p, hp, rfl⟩ := List.mem_map.mp ht
  exact ⟨p.1, p.2, List.mem_enum_iff_getElem?.mp hp, rfl⟩

theorem logdash_mem_tickSensors {draws : Nat → ℚ × ℚ × ℚ}
    {prev : List (Sensor LStatus)} {t : Sensor LStatus}
    (ht : t ∈ LogDash.tickSensors draws prev) :
    ∃ i s, prev[i]? = some s ∧
      t = LogDash.updateSensor (draws i).1 (draws i).2.1 (draws i).2.2 s := by
  unfold LogDash.tickSensors sortByRiskDesc at ht
  rw [List.mem_insertionSort] at ht
  obtain ⟨p, hp, rfl⟩ := List.mem_map.mp ht
  exact ⟨p.1, p.2, List.mem_enum_iff_getElem?.mp hp, rfl⟩

theorem perturb_bounds {r : ℚ} (c : ℚ) (hc : 0 < c) (h0 : 0 ≤ r) (h1 : r < 1) :
    -(c / 2) ≤ (r - 1 / 2) * c ∧ (r - 1 / 2) * c ≤ c / 2 := by
  constructor <;> nlinarith

/-- C1: one tick maps every sensor of an in-range array to a sensor whose
value is clamp(value + dv) with dv in [-2.5, 2.5] and whose risk is
clamp(risk + dr) with dr in [-1.5, 1.5], and every post-tick value and
risk lies in [0, 100] — in both dashboard variants. -/
theorem claim_tick_clamp :
    (∀ (prev : List (Sensor DStatus)) (draws : Nat → ℚ × ℚ × ℚ),
      (∀ s ∈ prev, 0 ≤ s.value ∧ s.value ≤ 100 ∧ 0 ≤ s.risk ∧ s.risk ≤ 100) →
      (∀ i, 0 ≤ (draws i).1 ∧ (draws i).1 < 1 ∧ 0 ≤ (draws i).2.1 ∧ (draws i).2.1 < 1) →
      ∀ t ∈ Dash.tickSensors draws prev, ∃ s ∈ prev, ∃ dv dr : ℚ,
        -(5/2) ≤ dv ∧ dv ≤ 5/2 ∧ -(3/2) ≤ dr ∧ dr ≤ 3/2 ∧
        t.value = clamp (s.value + dv) ∧ t.risk = clamp (s.risk + dr) ∧
        0 ≤ t.value ∧ t.value ≤ 100 ∧ 0 ≤ t.risk ∧ t.risk ≤ 100) ∧
    (∀ (prev : List (Sensor LStatus)) (draws : Nat → ℚ × ℚ × ℚ),
      (∀ s ∈ prev, 0 ≤ s.value ∧ s.value ≤ 100 ∧ 0 ≤ s.risk ∧ s.risk ≤ 100) →
      (∀ i, 0 ≤ (draws i).1 ∧ (draws i).1 < 1 ∧ 0 ≤ (draws i).2.1 ∧ (draws i).2.1 < 1) →
      ∀ t ∈ LogDash.tickSensors draws prev, ∃ s ∈ prev, ∃ dv dr : ℚ,
        -(5/2) ≤ dv ∧ dv ≤ 5/2 ∧ -(3/2) ≤ dr ∧ dr ≤ 3/2 ∧
        t.value = clamp (s.value + dv) ∧ t.risk = clamp (s.risk + dr) ∧
        0 ≤ t.value ∧ t.value ≤ 100 ∧ 0 ≤ t.risk ∧ t.risk ≤ 100) := by
  constructor
  · intro prev draws _ hdraws t ht
    obtain ⟨i, s, hget, rfl⟩ := dash_mem_tickSensors ht
    obtain ⟨hv0, hv1, hr0, hr1⟩ := hdraws i
    obtain ⟨hdv0, hdv1⟩ := perturb_bounds 5 (by norm_num) hv0 hv1
    obtain ⟨hdr0, hdr1⟩ := perturb_bounds 3 (by norm_num) hr0 hr1
    refine ⟨s, List.getElem?_mem hget, ((draws i).1 - 1/2) * 5, ((draws i).2.1 - 1/2) * 3,
      by linarith, by linarith, by linarith, by linarith, rfl, rfl,
      clamp_nonneg _, clamp_le_100 _, clamp_nonneg _, clamp_le_100 _⟩
  · intro prev draws _ hdraws t ht
    obtain ⟨i, s, hget, rfl⟩ := logdash_mem_tickSensors ht
    obtain ⟨hv0, hv1, hr0, hr1⟩ := hdraws i
    obtain ⟨hdv0, hdv1⟩ := perturb_bounds 5 (by norm_num) hv0 hv1
    obtain ⟨hdr0, hdr1⟩ := perturb_bounds 3 (by norm_num) hr0 hr1
    refine ⟨s, List.getElem?_mem hget, ((draws i).1 - 1/2) * 5, ((draws i).2.1 - 1/2) * 3,
      by linarith, by linarith, by linarith, by linarith, rfl, rfl,
      clamp_nonneg _, clamp_le_100 _, clamp_nonneg _, clamp_le_100 _⟩

def oneSensor : Sensor DStatus :=
  { id := 1, name := "XMEAS_1", value := 50, risk := 50,
    status := DStatus.normal, type := SType.temperature }

theorem claim_tick_clamp_witness :
    (∀ s ∈ [oneSensor], 0 ≤ s.value ∧ s.value ≤ 100 ∧ 0 ≤ s.risk ∧ s.risk ≤ 100) ∧
    (∀ t ∈ Dash.tickSensors (fun _ => (0, 0, 0)) [oneSensor], ∃ s ∈ [oneSensor], ∃ dv dr : ℚ,
      -(5/2) ≤ dv ∧ dv ≤ 5/2 ∧ -(3/2) ≤ dr ∧ dr ≤ 3/2 ∧
      t.value = clamp (s.value + dv) ∧ t.risk = clamp (s.risk + dr) ∧
      0 ≤ t.value ∧ t.value ≤ 100 ∧ 0 ≤ t.risk ∧ t.risk ≤ 100) :=
  ⟨by norm_num [oneSensor], claim_tick_clamp.1 [oneSensor] (fun _ => (0, 0, 0))
      (by norm_num [oneSensor])
      (fun i => by norm_num)⟩

end Claims2

section Claims3

open TEP TEP.Dash TEP.LogDash

theorem dash_rawSensors_ids (val rsk st : Nat → ℚ) :
    (Dash.rawSensors val rsk st).map Sensor.id = List.range' 1 52 := by
  unfold Dash.rawSensors
  rw [List.map_map]
  rfl

theorem logdash_rawSensors_ids (val rsk st : Nat → ℚ) :
    (LogDash.rawSensors val rsk st).map Sensor.id = List.range' 1 52 := by
  unfold LogDash.rawSensors
  rw [List.map_map]
  rfl

theorem dash_tickSensors_ids (draws : Nat → ℚ × ℚ × ℚ) (prev : List (Sensor DStatus)) :
    List.Perm ((Dash.tickSensors draws prev).map Sensor.id) (prev.map Sensor.id) := by
  unfold Dash.tickSensors
  refine ((sortByRiskDesc_perm _).map Sensor.id).trans ?_
  rw [List.map_map]
  have h2 : prev.enum.map
      (Sensor.id ∘ fun p =>
        Dash.updateSensor (draws p.1).1 (draws p.1).2.1 (draws p.1).2.2 p.2)
      = prev.map Sensor.id := by
    rw [show (Sensor.id ∘ fun p : Nat × Sensor DStatus =>
        Dash.updateSensor (draws p.1).1 (draws p.1).2.1 (draws p.1).2.2 p.2)
        = (Sensor.id ∘ Prod.snd) from rfl,
      ← List.map_map, List.enum_map_snd]
  rw [h2]

theorem logdash_tickSensors_ids (draws : Nat → ℚ × ℚ × ℚ) (prev : List (Sensor LStatus)) :
    List.Perm ((LogDash.tickSensors draws prev).map Sensor.id) (prev.map Sensor.id) := by
  unfold LogDash.tickSensors
  refine ((sortByRiskDesc_perm _).map Sensor.id).trans ?_
  rw [List.map_map]
  have h2 : prev.enum.map
      (Sensor.id ∘ fun p =>
        LogDash.updateSensor (draws p.1).1 (draws p.1).2.1 (draws p.1).2.2 p.2)
      = prev.map Sensor.id := by
    rw [show (Sensor.id ∘ fun p : Nat × Sensor LStatus =>
        LogDash.updateSensor (draws p.1).1 (draws p.1).2.1 (draws p.1).2.2 p.2)
        = (Sensor.id ∘ Prod.snd) from rfl,
      ← List.map_map, List.enum_map_snd]
  rw [h2]

theorem range'_1_52_nodup : (List.range' 1 52).Nodup := by decide

/-- C2: after generate() and after every tick, the collection has exactly
52 sensors, its ids are a permutation of 1..52 (hence unique), and it is
sorted in descending order of risk — in both dashboard variants. -/
theorem claim_collection_invariant :
    (∀ val rsk st : Nat → ℚ,
      (Dash.generateTEPData val rsk st).length = 52 ∧
      List.Perm ((Dash.generateTEPData val rsk st).map Sensor.id) (List.range' 1 52) ∧
      ((Dash.generateTEPData val rsk st).map Sensor.id).Nodup ∧
      List.Sorted riskGE (Dash.generateTEPData val rsk st)) ∧
    (∀ val rsk st : Nat → ℚ,
      (LogDash.generateTEPData val rsk st).length = 52 ∧
      List.Perm ((LogDash.generateTEPData val rsk st).map Sensor.id) (List.range' 1 52) ∧
      ((LogDash.generateTEPData val rsk st).map Sensor.id).Nodup ∧
      List.Sorted riskGE (LogDash.generateTEPData val rsk st)) ∧
    (∀ (draws : Nat → ℚ × ℚ × ℚ) (prev : List (Sensor DStatus)),
      List.Perm (prev.map Sensor.id) (List.range' 1 52) →
      (Dash.tickSensors draws prev).length = 52 ∧
      List.Perm ((Dash.tickSensors draws prev).map Sensor.id) (List.range' 1 52) ∧
      ((Dash.tickSensors draws prev).map Sensor.id).Nodup ∧
      List.Sorted riskGE (Dash.tickSensors draws prev)) ∧
    (∀ (draws : Nat → ℚ × ℚ × ℚ) (prev : List (Sensor LStatus)),
      List.Perm (prev.map Sensor.id) (List.range' 1 52) →
      (LogDash.tickSensors draws prev).length = 52 ∧
      List.Perm ((LogDash.tickSensors draws prev).map Sensor.id) (List.range' 1 52) ∧
      ((LogDash.tickSensors draws prev).map Sensor.id).Nodup ∧
      List.Sorted riskGE (LogDash.tickSensors draws prev)) := by
  refine ⟨fun val rsk st => ?_, fun val rsk st => ?_,
    fun draws prev hids => ?_, fun draws prev hids => ?_⟩
  · have hperm : List.Perm ((Dash.generateTEPData val rsk st).map Sensor.id)
        (List.range' 1 52) := by
      refine ((sortByRiskDesc_perm _).map Sensor.id).trans ?_
      rw [dash_rawSensors_ids]
    have hlen := hperm.length_eq
    simp only [List.length_map, List.length_range'] at hlen
    exact ⟨hlen, hperm, hperm.nodup_iff.mpr range'_1_52_nodup, sortByRiskDesc_sorted _⟩
  · have hperm : List.Perm ((LogDash.generateTEPData val rsk st).map Sensor.id)
        (List.range' 1 52) := by
      refine ((sortByRiskDesc_perm _).map Sensor.id).trans ?_
      rw [logdash_rawSensors_ids]
    have hlen := hperm.length_eq
    simp only [List.length_map, List.length_range'] at hlen
    exact ⟨hlen, hperm, hperm.nodup_iff.mpr range'_1_52_nodup, sortByRiskDesc_sorted _⟩
  · have hperm : List.Perm ((Dash.tickSensors draws prev).map Sensor.id)
        (List.range' 1 52) := (dash_tickSensors_ids draws prev).trans hids
    have hlen := hperm.length_eq
    simp only [List.length_map, List.length_range'] at hlen
    exact ⟨hlen, hperm, hperm.nodup_iff.mpr range'_1_52_nodup, sortByRiskDesc_sorted _⟩
  · have hperm : List.Perm ((LogDash.tickSensors draws prev).map Sensor.id)
        (List.range' 1 52) := (logdash_tickSensors_ids draws prev).trans hids
    have hlen := hperm.length_eq
    simp only [List.length_map, List.length_range'] at hlen
    exact ⟨hlen, hperm, hperm.nodup_iff.mpr range'_1_52_nodup, sortByRiskDesc_sorted _⟩

/-- A fixed 52-sensor array used to instantiate hypotheses at a concrete input. -/
def flatSensors : List (Sensor LStatus) :=
  (List.range' 1 52).map (fun i =>
    { id := i, name := "XMEAS_" ++ toString i, value := 0, risk := 0,
      status := LStatus.Normal, type := typeOfId i })

theorem flatSensors_ids : flatSensors.map Sensor.id = List.range' 1 52 := by
  unfold flatSensors
  rw [List.map_map]
  rfl

theorem claim_collection_invariant_witness :
    List.Perm (flatSensors.map Sensor.id) (List.range' 1 52) ∧
    (LogDash.tickSensors (fun _ => (0, 0, 0)) flatSensors).length = 52 :=
  ⟨flatSensors_ids ▸ List.Perm.refl _,
    (claim_collection_invariant.2.2.2 (fun _ => (0, 0, 0)) flatSensors
      (flatSensors_ids ▸ List.Perm.refl _)).1⟩

end Claims3

section Claims4

open TEP TEP.Dash TEP.LogDash

theorem appendSample_step (L : List ChartPoint) (p : ChartPoint) :
    appendSample (L.drop (L.length - 30)) p
      = (L ++ [p]).drop ((L ++ [p]).length - 30) := by
  unfold appendSample
  rw [List.length_drop, List.drop_drop, List.length_append]
  rw [List.drop_append_of_le_length (by simp)]
  simp only [List.length_singleton]
  congr 1
  congr 1
  omega

theorem trendRun_aux : ∀ (ps L : List ChartPoint),
    ps.foldl appendSample (L.drop (L.length - 30))
      = (L ++ ps).drop ((L ++ ps).length - 30)
  | [], L => by simp
  | p :: ps, L => by
    rw [List.foldl_cons, appendSample_step, trendRun_aux ps (L ++ [p])]
    simp

theorem trendRun_eq (ps : List ChartPoint) :
    trendRun ps = ps.drop (ps.length - 30) := by
  have h := trendRun_aux ps []
  simpa [trendRun] using h

/-- C6: starting from an empty buffer, after n ticks the Trend Buffer is
the last min(n, 30) points (sliding window, oldest dropped first); after
31 ticks its length is 30 and its first point is tick #2's point. -/
theorem claim_trend_window (ps : List ChartPoint) :
    trendRun ps = ps.drop (ps.length - 30) ∧
    (trendRun ps).length = min ps.length 30 ∧
    (ps.length = 31 →
      (trendRun ps).length = 30 ∧ (trendRun ps).head? = ps[1]?) := by
  refine ⟨trendRun_eq ps, ?_, fun h31 => ?_⟩
  · rw [trendRun_eq, List.length_drop]
    omega
  · constructor
    · rw [trendRun_eq, List.length_drop, h31]
    · rw [trendRun_eq, h31]
      show (ps.drop 1).head? = ps[1]?
      rw [List.head?_drop]

def tickPoint (i : Nat) : ChartPoint := { time := toString i, entries := [] }

theorem claim_trend_window_witness :
    ((List.range 31).map tickPoint).length = 31 ∧
    (trendRun ((List.range 31).map tickPoint)).length = 30 ∧
    (trendRun ((List.range 31).map tickPoint)).head? =
      ((List.range 31).map tickPoint)[1]? :=
  ⟨by simp, (claim_trend_window ((List.range 31).map tickPoint)).2.2 (by simp)⟩

/-- C9: the chart point built for a tick has a value under a selected id
exactly when a sensor with that id exists in the sensor array; on a miss
the key is omitted while the point (with its time field) is still
appended to the buffer — the append always happens. -/
theorem claim_lookup_policy {σ : Type} (selection : List Nat)
    (sensors : List (Sensor σ)) (now : String) (prev : List ChartPoint)
    (sensorId : Nat) (hid : sensorId ∈ selection) :
    ((∃ v, (sensorId, v) ∈ (buildPoint selection sensors now).entries) ↔
      (∃ s ∈ sensors, s.id = sensorId)) ∧
    (buildPoint selection sensors now).time = now ∧
    (appendSample prev (buildPoint selection sensors now)).getLast?
      = some (buildPoint selection sensors now) := by
  refine ⟨⟨?_, ?_⟩, rfl, ?_⟩
  · rintro ⟨v, hv⟩
    obtain ⟨a, _, hfa⟩ := List.mem_filterMap.mp hv
    obtain ⟨s, hfind, heq⟩ := Option.map_eq_some'.mp hfa
    obtain ⟨rfl, _⟩ := Prod.mk.injEq .. ▸ heq
    refine ⟨s, List.mem_of_find?_eq_some hfind, ?_⟩
    have := List.find?_some hfind
    simpa using this
  · rintro ⟨s, hs, hsid⟩
    have hsome : (sensors.find? (fun t => t.id == sensorId)).isSome := by
      rw [List.find?_isSome]
      exact ⟨s, hs, by simpa using hsid⟩
    obtain ⟨s0, hs0⟩ := Option.isSome_iff_exists.mp hsome
    refine ⟨s0.value, List.mem_filterMap.mpr ⟨sensorId, hid, ?_⟩⟩
    rw [hs0]
    rfl
  · unfold appendSample
    rw [List.getLast?_append]
    rfl

theorem claim_lookup_policy_witness :
    (7 ∈ [7]) ∧
    ((∃ v, (7, v) ∈ (buildPoint [7] ([] : List (Sensor Dash.DStatus)) "t").entries) ↔
      (∃ s ∈ ([] : List (Sensor Dash.DStatus)), s.id = 7)) :=
  ⟨by decide,
    (claim_lookup_policy [7] ([] : List (Sensor Dash.DStatus)) "t" [] 7 (by decide)).1⟩

end Claims4

section Claims5

open TEP TEP.Dash TEP.LogDash

/-- A sensor with pre-update value 79, used to separate the pre-update
and post-update readings of the status rule. -/
def preValSensor : Sensor DStatus :=
  { id := 1, name := "XMEAS_1", value := 79, risk := 50,
    status := DStatus.normal, type := SType.temperature }

/-- C8 counterexample: with pre-update value 79, a value draw of 0.9
(so value' = 81 > 80) and a status draw of 0.5 (below the 0.9 forcing
threshold), the post-tick status is normal — not warning as the
value'-based reading of the rule would require. -/
theorem claim_value_status_cex :
    Dash.tickSensors (fun _ => ((9:ℚ)/10, 1/2, 1/2)) [preValSensor]
      = [{ id := 1, name := "XMEAS_1", value := 81, risk := 50,
           status := DStatus.normal, type := SType.temperature }] ∧
    (81 : ℚ) > 80 ∧ ((1 : ℚ)/2 ≤ 9/10) := by
  refine ⟨?_, by norm_num, by norm_num⟩
  have h : Dash.tickSensors (fun _ => ((9:ℚ)/10, 1/2, 1/2)) [preValSensor]
      = [Dash.updateSensor ((9:ℚ)/10) (1/2) (1/2) preValSensor] := rfl
  rw [h]
  unfold Dash.updateSensor preValSensor clamp
  norm_num

/-- C8 (amended): in the App.jsx variant, every post-tick sensor arises
from a pre-tick sensor by `updateSensor`, and when the status draw does
not force warning (rs ≤ 0.9) its status is warning exactly when the
PRE-update value exceeds 80 (the code reads `s.value`, the pre-update
value, not the post-update value'). -/
theorem claim_value_status (prev : List (Sensor DStatus)) (draws : Nat → ℚ × ℚ × ℚ) :
    ∀ t ∈ Dash.tickSensors draws prev, ∃ i s, prev[i]? = some s ∧
      t = Dash.updateSensor (draws i).1 (draws i).2.1 (draws i).2.2 s ∧
      ((draws i).2.2 ≤ 9/10 →
        ((t.status = DStatus.warning ↔ s.value > 80) ∧
         (t.status = DStatus.normal ↔ ¬ s.value > 80))) := by
  intro t ht
  obtain ⟨i, s, hget, rfl⟩ := dash_mem_tickSensors ht
  refine ⟨i, s, hget, rfl, fun hrs => ?_⟩
  have hnot : ¬ ((draws i).2.2 > 9/10) := not_lt.mpr hrs
  by_cases hv : s.value > 80
  · constructor <;> simp [Dash.updateSensor, hnot, hv]
  · constructor <;> simp [Dash.updateSensor, hnot, hv]

def halfDraws : Nat → ℚ × ℚ × ℚ := fun _ => (1/2, 1/2, 1/2)

def halfUpd : Sensor DStatus := Dash.updateSensor (1/2) (1/2) (1/2) preValSensor

theorem claim_value_status_witness :
    halfUpd ∈ Dash.tickSensors halfDraws [preValSensor] ∧
    (∃ i s, ([preValSensor] : List (Sensor DStatus))[i]? = some s ∧
      halfUpd = Dash.updateSensor (halfDraws i).1 (halfDraws i).2.1 (halfDraws i).2.2 s ∧
      ((halfDraws i).2.2 ≤ 9/10 →
        ((halfUpd.status = DStatus.warning ↔ s.value > 80) ∧
         (halfUpd.status = DStatus.normal ↔ ¬ s.value > 80)))) := by
  have hmem : halfUpd ∈ Dash.tickSensors halfDraws [preValSensor] := by
    rw [show Dash.tickSensors halfDraws [preValSensor] = [halfUpd] from rfl]
    exact List.mem_singleton.mpr rfl
  exact ⟨hmem, claim_value_status [preValSensor] halfDraws halfUpd hmem⟩

/-- Sensor, state and draws used to exhibit that the recorded chart value
is the pre-update value even when the post-update value differs. -/
def demoSensor : Sensor LStatus :=
  { id := 1, name := "XMEAS_1", value := 50, risk := 50,
    status := LStatus.Normal, type := SType.temperature }

def demoState : LogDash.AppState :=
  { sensors := [demoSensor], chartData := [], dataLog := [] }

def demoDraws : Nat → ℚ × ℚ × ℚ := fun _ => (9/10, 1/2, 1/2)

/-- C10: within one tick, the appended chart point and the new log
entries are built from the pre-update sensor array: every recorded
chart value and every new log entry's value/name/status come from
`st.sensors` as it was before the tick, in both variants; concretely,
with pre-update value 50 and a +2 perturbation the chart records 50
while the post-tick sensor holds 52. -/
theorem claim_pre_update_snapshot (st : LogDash.AppState)
    (draws : Nat → ℚ × ℚ × ℚ) (selection : List Nat) (now : String) :
    ((LogDash.tick draws selection now st).chartData.getLast?
      = some (buildPoint selection st.sensors now)) ∧
    (∀ id v, (id, v) ∈ (buildPoint selection st.sensors now).entries →
      ∃ s ∈ st.sensors, s.id = id ∧ s.value = v) ∧
    (∀ idx s, (st.sensors.take 5)[idx]? = some s →
      ∃ e, (LogDash.tick draws selection now st).dataLog[idx]? = some e ∧
        e.no = st.dataLog.length + idx + 1 ∧
        e.sensorName = s.name ∧ e.value = s.value ∧ e.status = s.status) ∧
    (∀ st2 : Dash.AppState, (Dash.tick draws selection now st2).chartData.getLast?
      = some (buildPoint selection st2.sensors now)) ∧
    ((LogDash.tick demoDraws [1] "t" demoState).chartData.getLast?
      = some { time := "t", entries := [(1, 50)] }) ∧
    ((LogDash.tick demoDraws [1] "t" demoState).sensors.map Sensor.value = [52]) ∧
    ((50 : ℚ) ≠ 52) := by
  refine ⟨?_, ?_, ?_, ?_, ?_, ?_, by norm_num⟩
  · show (appendSample _ _).getLast? = _
    unfold appendSample
    rw [List.getLast?_append]
    rfl
  · intro id v hv
    obtain ⟨a, _, hfa⟩ := List.mem_filterMap.mp hv
    obtain ⟨s, hfind, heq⟩ := Option.map_eq_some'.mp hfa
    obtain ⟨rfl, rfl⟩ := Prod.mk.injEq .. ▸ heq
    refine ⟨s, List.mem_of_find?_eq_some hfind, ?_, rfl⟩
    have := List.find?_some hfind
    simpa using this
  · intro idx s hs
    have hlt : idx < (st.sensors.take 5).length := by
      by_contra hge
      rw [List.getElem?_eq_none (le_of_not_lt hge)] at hs
      exact Option.noConfusion hs
    show ∃ e, (LogDash.appendLog st.sensors now st.dataLog)[idx]? = some e ∧ _
    unfold LogDash.appendLog
    have hlt100 : idx < 100 := by
      have h5 : (st.sensors.take 5).length ≤ 5 := by
        simp
      omega
    rw [List.getElem?_take_of_lt hlt100]
    have hltm : idx < ((st.sensors.take 5).enum.map (fun p =>
        ({ no := st.dataLog.length + p.1 + 1, time := now, sensorName := p.2.name,
           value := p.2.value, status := p.2.status } : LogDash.LogEntry))).length := by
      simpa using hlt
    rw [List.getElem?_append_left hltm]
    rw [List.getElem?_map, List.getElem?_enum, hs]
    exact ⟨_, rfl, rfl, rfl, rfl, rfl⟩
  · intro st2
    show (appendSample _ _).getLast? = _
    unfold appendSample
    rw [List.getLast?_append]
    rfl
  · rfl
  · have h : (LogDash.tick demoDraws [1] "t" demoState).sensors
        = [LogDash.updateSensor ((9:ℚ)/10) (1/2) (1/2) demoSensor] := rfl
    rw [h]
    unfold LogDash.updateSensor demoSensor clamp
    norm_num

theorem claim_pre_update_snapshot_witness :
    ((demoState.sensors.take 5)[0]? = some demoSensor) ∧
    (∃ e, (LogDash.tick demoDraws [1] "t" demoState).dataLog[0]? = some e ∧
      e.no = demoState.dataLog.length + 0 + 1 ∧
      e.sensorName = demoSensor.name ∧ e.value = demoSensor.value ∧
      e.status = demoSensor.status) :=
  ⟨rfl, (claim_pre_update_snapshot demoState demoDraws [1] "t").2.2.1 0 demoSensor rfl⟩

end Claims5

section Claims6

open TEP TEP.Dash TEP.LogDash

theorem appendLog_length (sensors : List (Sensor LStatus)) (now : String)
    (prev : List LogEntry) :
    (LogDash.appendLog sensors now prev).length
      = min (min 5 sensors.length + prev.length) 100 := by
  unfold LogDash.appendLog
  simp only [List.length_take, List.length_append, List.length_map,
    List.enum_length]
  omega

theorem logRun_length (sAt : Nat → List (Sensor LStatus)) (tAt : Nat → String)
    (h5 : ∀ k, 5 ≤ (sAt k).length) :
    ∀ n, (LogDash.logRun sAt tAt n).length = min (5 * n) 100
  | 0 => by simp [LogDash.logRun]
  | n + 1 => by
    simp only [LogDash.logRun]
    rw [appendLog_length, logRun_length sAt tAt h5 n]
    have := h5 n
    omega

/-- C4 (amended): the sequence numbers assigned to new log entries are
strictly increasing across ticks while the log is below its 100-entry
capacity (through the first 20 ticks); once the log is full, every tick
reassigns the same numbers 101..105. -/
theorem claim_log_seq (sAt : Nat → List (Sensor LStatus)) (tAt : Nat → String)
    (h5 : ∀ k, 5 ≤ (sAt k).length) (m n : Nat) :
    (m < n → 5 * n ≤ 100 →
      ∀ a ∈ LogDash.assignedNos sAt tAt m, ∀ b ∈ LogDash.assignedNos sAt tAt n,
        a < b) ∧
    (100 ≤ 5 * m → LogDash.assignedNos sAt tAt m = [101, 102, 103, 104, 105]) := by
  constructor
  · intro hmn hcap a ha b hb
    unfold LogDash.assignedNos at ha hb
    rw [logRun_length sAt tAt h5] at ha hb
    obtain ⟨i, hi, rfl⟩ := List.mem_map.mp ha
    obtain ⟨j, hj, rfl⟩ := List.mem_map.mp hb
    rw [List.mem_range] at hi hj
    have h5m := h5 m
    have h5n := h5 n
    omega
  · intro hcap
    unfold LogDash.assignedNos
    rw [logRun_length sAt tAt h5]
    have h5m := h5 m
    have hmin5 : min 5 (sAt m).length = 5 := by omega
    have hmin100 : min (5 * m) 100 = 100 := by omega
    rw [hmin5, hmin100]
    rfl

/-- A fixed 5-sensor array fed to every tick of the counterexample run. -/
def constSensors : List (Sensor LStatus) := List.replicate 5 demoSensor

/-- C4 counterexample: running from the empty log with a fixed 5-sensor
array, tick 21 (index 20) and tick 22 (index 21) both assign the
sequence numbers 101..105 — the numbers assigned at tick 22 are not
greater than those assigned at tick 21. -/
theorem claim_log_seq_cex :
    LogDash.assignedNos (fun _ => constSensors) (fun _ => "t") 20
      = [101, 102, 103, 104, 105] ∧
    LogDash.assignedNos (fun _ => constSensors) (fun _ => "t") 21
      = [101, 102, 103, 104, 105] := by
  constructor <;> rfl

theorem claim_log_seq_witness :
    (1 ∈ LogDash.assignedNos (fun _ => constSensors) (fun _ => "t") 0) ∧
    (6 ∈ LogDash.assignedNos (fun _ => constSensors) (fun _ => "t") 1) ∧
    (1 : Nat) < 6 :=
  ⟨by decide, by decide,
    (claim_log_seq (fun _ => constSensors) (fun _ => "t")
      (fun _ => (by decide : 5 ≤ constSensors.length)) 0 1).1
      (by decide) (by decide) 1 (by decide) 6 (by decide)⟩

end Claims6
